import Mathlib

/-!
Shallow embedding of the redis-enterprise-monitoring-agent core:
the health evaluator, probe error handling, the anomaly bookkeeping,
the failover decision engine (standard and LLM-advised variants) and the
DNS failover executor, translated from the Python sources
(redis-agent-core.py, redis-agent-monitoring.py,
redis-agent-anomaly-complete.py, redis-agent-failover-complete.py,
enhanced-failover.py).

Numeric fields that are Python floats are modelled over ℚ; all the claims
under study are threshold and arithmetic claims, not rounding claims.
Dictionaries are modelled as association lists with Python-dict update
semantics (replace in place, append when fresh).  External effects
(the DNS provider, the isolation-forest scorer) enter as explicit oracle
arguments.
-/

namespace RedisAgent

/-- String constants for statuses, alert types and severities
(kept as named definitions so that every literal used in argument
position is a plain name). -/
def stUnknown : String := "unknown"

def stHealthy : String := "healthy"

def stDegraded : String := "degraded"

def stFailing : String := "failing"

def stFailed : String := "failed"

def alertAnomalyDetected : String := "anomaly_detected"

def alertFailoverSucceeded : String := "failover_succeeded"

def alertFailoverFailed : String := "failover_failed"

def alertManualFailoverRequired : String := "manual_failover_required"

def sevInfo : String := "info"

def sevWarning : String := "warning"

def sevError : String := "error"

def sevCritical : String := "critical"

def recFailover : String := "failover"

/-- Association-list lookup with Python-dict semantics
(`d[k]` / `d.get(k)`); first binding wins, and `setA` below keeps
bindings unique the way dict assignment does. -/
def lookupA {α : Type} (k : String) : List (String × α) → Option α
  | [] => none
  | (k', v) :: rest => if k' = k then some v else lookupA k rest

/-- Association-list update with Python-dict assignment semantics:
replace the binding in place when the key exists, append otherwise. -/
def setA {α : Type} (k : String) (v : α) : List (String × α) → List (String × α)
  | [] => [(k, v)]
  | (k', v') :: rest => if k' = k then (k, v) :: rest else (k', v') :: setA k v rest

/-- `HealthStatus` dataclass from redis-agent-core.py (lines 35-49).
The Python dataclass does not declare `is_anomaly`; the anomaly detector
attaches it dynamically (`health_status.is_anomaly = True`), so it is
carried here as a plain field defaulting to `false`. -/
structure HealthStatus where
  status : String := stUnknown
  can_serve_traffic : Bool := true
  latency_ms : ℚ := 0
  memory_used_percent : ℚ := 0
  hit_rate : ℚ := 0
  ops_per_second : ℤ := 0
  connected_clients : ℤ := 0
  last_check : ℚ := 0
  consecutive_errors : ℕ := 0
  consecutive_anomalies : ℕ := 0
  anomaly_score : ℚ := 0
  is_anomaly : Bool := false
  error_message : Option String := none
  deriving Repr, DecidableEq

/-- One endpoint of an instance: the `{"host": ..., "port": ...}` dict built
by `RedisAgentCore._load_config`; both keys are always present but the host
value may be `None` (hence `Option`). -/
structure Endpoint where
  host : Option String := none
  port : ℤ := 0
  deriving Repr, DecidableEq

/-- `RedisInstance` dataclass from redis-agent-core.py (lines 26-33). -/
structure RedisInstance where
  name : String
  uid : String
  endpoints : List (String × Endpoint)
  active_dc : String := "primary"
  deriving Repr, DecidableEq

/-- The metrics dict assembled by `RedisMonitor._monitor_instance`
(redis-agent-monitoring.py lines 188-205), restricted to the fields the
health evaluator and the anomaly feature extractor read. -/
structure Metrics where
  timestamp : ℚ := 0
  latency_ms : ℚ := 0
  memory_used_percent : ℚ := 0
  hit_rate : ℚ := 0
  ops_per_second : ℤ := 0
  connected_clients : ℤ := 0
  rejected_connections : ℤ := 0
  evicted_keys : ℤ := 0
  expired_keys : ℤ := 0
  deriving Repr, DecidableEq

/-- `RedisMonitor._calculate_health_status` (redis-agent-monitoring.py
lines 244-286), translated statement by statement: the status field is
mutated in sequence by the latency, memory and rejected-connections
checks, so a later check can overwrite an earlier verdict. -/
def calculateHealthStatus (m : Metrics) : HealthStatus :=
  let status : HealthStatus :=
    { latency_ms := m.latency_ms
      memory_used_percent := m.memory_used_percent
      hit_rate := m.hit_rate
      ops_per_second := m.ops_per_second
      connected_clients := m.connected_clients
      last_check := m.timestamp
      consecutive_errors := 0 }
  let p1 : Bool × HealthStatus :=
    if m.latency_ms > 100 then (false, { status with status := stDegraded })
    else (true, status)
  let p2 : Bool × HealthStatus :=
    if m.memory_used_percent > 90 then
      let s := { p1.2 with status := stDegraded }
      let s :=
        if m.memory_used_percent > 95 then
          { s with status := stFailing, can_serve_traffic := false }
        else s
      (false, s)
    else p1
  let p3 : Bool × HealthStatus :=
    if m.rejected_connections > 0 then (false, { p2.2 with status := stDegraded })
    else p2
  if p3.1 then { p3.2 with status := stHealthy } else p3.2

/-- `RedisMonitor._update_error_status` (redis-agent-monitoring.py lines
230-242): the error sample written on any failed probe.  The literal
`consecutive_errors := 1` mirrors the source, whose comment expects the
core to increment it. -/
def updateErrorStatus (now : ℚ) (errorMessage : String) : HealthStatus :=
  { status := stFailed
    can_serve_traffic := false
    last_check := now
    consecutive_errors := 1
    error_message := some errorMessage }

/-- The `instance_uid -> dc -> HealthStatus` table held by the core agent. -/
def HealthTable : Type := List (String × List (String × HealthStatus))

/-- `RedisAgentCore.update_health_status` (redis-agent-core.py lines
244-253): replaces the stored status only when both keys already exist;
it performs no increment or merge. -/
def updateHealthStatus (t : HealthTable) (uid dc : String) (st : HealthStatus) :
    HealthTable :=
  (lookupA uid t).elim t fun inner =>
    (lookupA dc inner).elim t fun _ => setA uid (setA dc st inner) t

/-- Health map of one instance as handed to the decision engine:
`RedisAgentCore.get_instance_health` returns a copy of the per-instance
dict, or `{}` when the uid is unknown. -/
def getInstanceHealth (t : HealthTable) (uid : String) : List (String × HealthStatus) :=
  (lookupA uid t).getD []

/-- The per-instance slice of `RedisAgentCore.initialize` (redis-agent-core.py
lines 160-168): one default `HealthStatus()` per endpoint datacenter. -/
def initInstanceHealth (i : RedisInstance) : List (String × HealthStatus) :=
  i.endpoints.foldl (fun inner e => setA e.1 {} inner) []

/-- `RedisAgentCore.initialize` health-table construction over all
configured instances (later instances with a duplicate uid replace the
earlier dict, as repeated dict assignment does). -/
def initializeHealth (instances : List RedisInstance) : HealthTable :=
  instances.foldl (fun t i => setA i.uid (initInstanceHealth i) t) []

/-- A probe-status write event: the arguments of one
`update_health_status` call. -/
structure HealthEvent where
  uid : String
  dc : String
  st : HealthStatus
  deriving Repr

/-- A sequence of probe-status writes applied to the health table. -/
def applyEvents (t : HealthTable) (events : List HealthEvent) : HealthTable :=
  events.foldl (fun t e => updateHealthStatus t e.uid e.dc e.st) t

/-- An event published to the alert bus, reduced to the fields the claims
mention (`send_alert`'s `alert_type` and `severity`). -/
structure Alert where
  type : String
  severity : String
  deriving Repr, DecidableEq

/-- Outcome of `AnomalyDetector._detect_anomaly` for one sample.  The
isolation-forest scoring itself is external input here: the claims under
study condition on the sample being anomalous with a given score. -/
structure DetectionResult where
  is_anomaly : Bool
  score : ℚ
  deriving Repr

/-- Severity chosen by `AnomalyDetector._create_anomaly_alert`
(redis-agent-anomaly-complete.py lines 371-376). -/
def anomalyAlertSeverity (score : ℚ) : String :=
  if score > 0.95 then sevCritical else if score > 0.9 then sevError else sevWarning

/-- `AnomalyDetector.process_metrics` (redis-agent-anomaly-complete.py
lines 211-263), with `_detect_anomaly` abstracted as `det` and the
feature-ring bookkeeping (training data only) elided.  Returns `none`
where the Python raises `KeyError` on a missing health entry
(`get_health_status()[instance_uid][dc_name]`). -/
def processMetrics (anomalyThreshold : ℚ) (det : DetectionResult)
    (t : HealthTable) (uid dc : String) : Option (HealthTable × List Alert) :=
  if det.is_anomaly then
    ((lookupA uid t).bind (lookupA dc)).elim none fun hs =>
      let hs := { hs with
        is_anomaly := true
        anomaly_score := det.score
        consecutive_anomalies := hs.consecutive_anomalies + 1 }
      let hs :=
        if det.score > 0.9 then
          let hs := { hs with status := stFailing }
          if det.score > 0.95 then { hs with can_serve_traffic := false } else hs
        else if hs.status = stHealthy then { hs with status := stDegraded }
        else hs
      let t := updateHealthStatus t uid dc hs
      let alerts :=
        if det.score > anomalyThreshold ∧ hs.consecutive_anomalies ≥ 3 then
          [⟨alertAnomalyDetected, anomalyAlertSeverity det.score⟩]
        else []
      some (t, alerts)
  else some (t, [])

/-- Error message standing in for `str(e)` of a `KeyError` raised inside
the probe tick. -/
def errKeyError : String := "KeyError"

/-- One successful probe tick of `RedisMonitor._monitor_instance`
(redis-agent-monitoring.py lines 218-228): the freshly computed
`HealthStatus` is stored first, then the anomaly detector runs on the
same sample; an exception inside the tick falls back to
`_update_error_status`. -/
def monitorTick (anomalyThreshold : ℚ) (t : HealthTable) (uid dc : String)
    (m : Metrics) (det : DetectionResult) : HealthTable × List Alert :=
  let t := updateHealthStatus t uid dc (calculateHealthStatus m)
  (processMetrics anomalyThreshold det t uid dc).elim
    (updateHealthStatus t uid dc (updateErrorStatus m.timestamp errKeyError), [])
    fun r => r

/-- `FailoverManager._calculate_dc_score` (redis-agent-failover-complete.py
lines 429-460), translated check by check: the latency and hit-rate
bonuses apply only when the respective field is strictly positive. -/
def calculateDcScore (s : HealthStatus) : ℚ :=
  let score : ℚ := 0
  let score :=
    if s.status = stHealthy then score + 100
    else if s.status = stDegraded then score + 50
    else score
  let score := if s.latency_ms > 0 then score + max 0 (50 - s.latency_ms / 2) else score
  let score :=
    if s.memory_used_percent < 80 then score + (100 - s.memory_used_percent) / 2
    else score
  let score := if s.hit_rate > 0 then score + s.hit_rate * 30 else score
  let score := score - (s.consecutive_errors : ℚ) * 10
  score - (s.consecutive_anomalies : ℚ) * 5

/-- Accumulator loop of `FailoverManager._find_best_alternative_dc`
(redis-agent-failover-complete.py lines 405-427): skip the active
datacenter and non-serving replicas, keep the strictly best score. -/
def findBestAux (active : String) (best : Option String × ℚ) :
    List (String × HealthStatus) → Option String × ℚ
  | [] => best
  | (dc, st) :: rest =>
    if dc = active then findBestAux active best rest
    else if st.can_serve_traffic = false then findBestAux active best rest
    else if calculateDcScore st > best.2 then
      findBestAux active (some dc, calculateDcScore st) rest
    else findBestAux active best rest

/-- `FailoverManager._find_best_alternative_dc`: best score starts at −1. -/
def findBestAlternativeDc (inst : RedisInstance)
    (health : List (String × HealthStatus)) : Option String :=
  (findBestAux inst.active_dc (none, -1) health).1

/-- `FailoverDecision` (redis-agent-failover-complete.py lines 264-289).
The human-readable `reason` strings and the metrics snapshot dict are
elided; no claim concerns their contents. -/
structure FailoverDecision where
  instance_uid : String
  instance_name : String
  from_dc : String
  to_dc : String
  confidence : ℚ
  timestamp : ℚ := 0
  deriving Repr, DecidableEq

/-- One conditional `confidence += x` statement of
`_make_failover_decision`. -/
def addIf (c : Prop) [Decidable c] (x conf : ℚ) : ℚ := if c then conf + x else conf

/-- The if/elif cooldown statement of `_make_failover_decision`
(lines 514-519): −0.3 within an hour of the last failover, else −0.1
within a day. -/
def cooldownAdj (ts conf : ℚ) : ℚ :=
  if ts < 3600 then conf - 0.3 else if ts < 86400 then conf - 0.1 else conf

/-- `FailoverManager._make_failover_decision` (redis-agent-failover-complete.py
lines 462-554): base confidence 0.5, the sequence of additive
adjustments, the if/elif cooldown bands, and the final clamp to [0,1].
`now - last_failover` instantiates `time.time() - last_failover`, with
the stored time defaulting to 0. -/
def makeFailoverDecision (inst : RedisInstance) (fromDc toDc : String)
    (health : List (String × HealthStatus)) (now : ℚ)
    (lastFailover : List (String × ℚ)) : FailoverDecision :=
  let missing : FailoverDecision :=
    { instance_uid := inst.uid, instance_name := inst.name,
      from_dc := fromDc, to_dc := toDc, confidence := 0, timestamp := now }
  (lookupA fromDc health).elim missing fun a =>
  (lookupA toDc health).elim missing fun t =>
    let confidence : ℚ := 0.5
    let confidence := addIf (a.status = stFailed) 0.4 confidence
    let confidence := addIf (a.consecutive_errors ≥ 3) 0.3 confidence
    let confidence := addIf (a.status = stFailing) 0.2 confidence
    let confidence := addIf (a.memory_used_percent > 95) 0.2 confidence
    let confidence := addIf (a.latency_ms > 500) 0.15 confidence
    let confidence := addIf (t.status = stHealthy ∧ a.status ≠ stHealthy) 0.1 confidence
    let timeSince := now - (lookupA inst.uid lastFailover).getD 0
    let confidence := cooldownAdj timeSince confidence
    let confidence := max 0 (min 1 confidence)
    { instance_uid := inst.uid, instance_name := inst.name,
      from_dc := fromDc, to_dc := toDc, confidence := confidence, timestamp := now }

/-- Agent configuration fields the decision engine reads
(redis-agent-core.py `AgentConfig`, with `ai_failover_confidence` the
key the enhanced manager reads; `none` models its absence, folded to 0.8
by the `or 0.8` in the source). -/
structure AgentConfig where
  auto_failover : Bool := false
  failover_confidence_threshold : ℚ := 0.95
  anomaly_threshold : ℚ := 0.8
  ai_failover_confidence : Option ℚ := none
  deriving Repr

/-- Result of one run of `FailoverManager._check_instance_for_failover`
for one instance.  `executeFailover d` means `_execute_failover(d)` was
invoked; its DNS effects and alerts are modelled by `executeFailover`
below. -/
inductive CheckOutcome where
  | noHealth
  | noActiveStatus
  | activeServes
  | noAlternative
  | executeFailover (d : FailoverDecision)
  | manualAlert (d : FailoverDecision)
  | lowConfidenceSkip (d : FailoverDecision)
  deriving Repr, DecidableEq

/-- `FailoverManager._check_instance_for_failover`
(redis-agent-failover-complete.py lines 362-403), the standard decision
path: early return while the active replica can serve traffic; below the
confidence threshold the decision is only logged
(`logger.info("Failover confidence too low ...")`), and the
manual-intervention alert is sent only on the ≥-threshold branch with
`auto_failover` disabled. -/
def checkInstanceForFailover (cfg : AgentConfig) (now : ℚ)
    (lastFailover : List (String × ℚ)) (inst : RedisInstance)
    (health : List (String × HealthStatus)) : CheckOutcome :=
  if health.isEmpty then .noHealth
  else
    (lookupA inst.active_dc health).elim .noActiveStatus fun activeSt =>
      if activeSt.can_serve_traffic then .activeServes
      else
        (findBestAlternativeDc inst health).elim .noAlternative fun alt =>
          let d := makeFailoverDecision inst inst.active_dc alt health now lastFailover
          if d.confidence ≥ cfg.failover_confidence_threshold then
            if cfg.auto_failover then .executeFailover d else .manualAlert d
          else .lowConfidenceSkip d

/-- Alerts sent directly by `_check_instance_for_failover` itself: only
the `manual_failover_required` alert of `_send_manual_intervention_alert`;
the success/failure alerts of an executed failover are sent inside
`_execute_failover`. -/
def outcomeAlerts : CheckOutcome → List Alert
  | .manualAlert _ => [⟨alertManualFailoverRequired, sevWarning⟩]
  | _ => []

/-- Confidence carried by a decision-bearing outcome. -/
def outcomeConfidence : CheckOutcome → Option ℚ
  | .executeFailover d => some d.confidence
  | .manualAlert d => some d.confidence
  | .lowConfidenceSkip d => some d.confidence
  | _ => none

/-- Whether the outcome is the silent below-threshold skip. -/
def isLowConfidenceSkip : CheckOutcome → Bool
  | .lowConfidenceSkip _ => true
  | _ => false

/-- A DNS record entry of `dns_config.records`.  `record.get("instance_uid", "")`
and `record.get("instance_name", "")` default to the empty string (Python
falsy); `record.get("name")` may be absent. -/
structure DnsRecord where
  name : Option String := none
  type : String := "CNAME"
  ttl : ℤ := 60
  instance_uid : String := ""
  instance_name : String := ""
  deriving Repr, DecidableEq

/-- The `dns_config` dict as read by `DNSFailoverProvider`. -/
structure DnsConfig where
  records : List DnsRecord := []
  endpoint_map : List (String × List (String × String)) := []
  deriving Repr

/-- The `instance_info` dict built by `FailoverManager._execute_failover`
(lines 565-569). -/
structure InstanceInfo where
  name : String := ""
  uid : String := ""
  endpoints : List (String × Endpoint) := []
  deriving Repr

/-- `DNSFailoverProvider._get_dns_records_for_instance`
(redis-agent-failover-complete.py lines 108-136): instance-specific
records take precedence; otherwise the default records (no instance
fields) are copied and tagged with the instance's identifiers. -/
def getDnsRecordsForInstance (cfg : DnsConfig) (uid iname : String) : List DnsRecord :=
  let specific := cfg.records.filter fun r =>
    decide ((r.instance_uid ≠ "" ∧ r.instance_uid = uid) ∨
      (r.instance_name ≠ "" ∧ r.instance_name = iname))
  if specific.isEmpty then
    (cfg.records.filter fun r => decide (r.instance_uid = "" ∧ r.instance_name = "")).map
      fun r => { r with instance_uid := uid, instance_name := iname }
  else specific

/-- `DNSFailoverProvider._get_endpoint_for_dc` (lines 138-156): the
instance's endpoints map first (the `host` value, possibly `None`), then
the `endpoint_map` override, then the synthesized
`<name>.<dc>.example.com` default. -/
def getEndpointForDc (cfg : DnsConfig) (uid dc : String) (info : InstanceInfo) :
    Option String :=
  (lookupA dc info.endpoints).elim
    (((lookupA uid cfg.endpoint_map).bind (lookupA dc)).elim
      (some (info.name ++ "." ++ dc ++ ".example.com")) some)
    fun ep => ep.host

/-- Per-record success inside `DNSFailoverProvider.perform_failover`
(lines 77-104): a record with a falsy name fails; otherwise the outcome
of `update_record` (exceptions included) is the oracle's verdict. -/
def recordUpdateOk (upd : String → String → ℤ → String → Bool) (target : String)
    (r : DnsRecord) : Bool :=
  r.name.elim false fun n => if n = "" then false else upd n r.type r.ttl target

/-- `DNSFailoverProvider.perform_failover` (redis-agent-failover-complete.py
lines 59-106): fails when no records are configured for the instance or
no truthy target endpoint resolves; otherwise succeeds exactly when every
record update succeeds. -/
def performFailover (upd : String → String → ℤ → String → Bool) (cfg : DnsConfig)
    (uid toDc : String) (info : InstanceInfo) : Bool :=
  let recs := getDnsRecordsForInstance cfg uid info.name
  if recs.isEmpty then false
  else
    (getEndpointForDc cfg uid toDc info).elim false fun target =>
      if target = "" then false
      else recs.all (recordUpdateOk upd target)

/-- The mutable agent state the failover executor touches: the instance
list (carrying `active_dc`) and the per-instance last-failover clock. -/
structure AgentState where
  instances : List RedisInstance
  lastFailoverTime : List (String × ℚ) := []
  deriving Repr

/-- First instance with the given uid (the `for ... break` searches in
`_execute_failover` and `perform_manual_failover`). -/
def findInstance (uid : String) : List RedisInstance → Option RedisInstance
  | [] => none
  | i :: rest => if i.uid = uid then some i else findInstance uid rest

/-- `RedisAgentCore.switch_active_dc` (redis-agent-core.py lines 284-295):
sets `active_dc` of the first instance with the given uid to the new
value, without validating it against the endpoints map. -/
def switchActiveDc (uid newDc : String) : List RedisInstance → List RedisInstance
  | [] => []
  | i :: rest =>
    if i.uid = uid then { i with active_dc := newDc } :: rest
    else i :: switchActiveDc uid newDc rest

/-- `FailoverManager._execute_failover` (redis-agent-failover-complete.py
lines 556-611): on provider success switch the active DC, record the
failover time and alert `failover_succeeded`; on failure leave the state
untouched and alert `failover_failed`.  Returns the new state, the
alerts sent, and the boolean result. -/
def executeFailover (upd : String → String → ℤ → String → Bool) (cfg : DnsConfig)
    (now : ℚ) (st : AgentState) (d : FailoverDecision) :
    AgentState × List Alert × Bool :=
  (findInstance d.instance_uid st.instances).elim (st, [], false) fun inst =>
    let info : InstanceInfo :=
      { name := inst.name, uid := inst.uid, endpoints := inst.endpoints }
    if performFailover upd cfg d.instance_uid d.to_dc info then
      ({ instances := switchActiveDc d.instance_uid d.to_dc st.instances,
         lastFailoverTime := setA d.instance_uid now st.lastFailoverTime },
       [⟨alertFailoverSucceeded, sevInfo⟩], true)
    else (st, [⟨alertFailoverFailed, sevError⟩], false)

/-- Reason string of a manual failover decision. -/
def manualReason : String := "Manual failover requested"

/-- `FailoverManager.perform_manual_failover` (redis-agent-failover-complete.py
lines 676-709): builds a confidence-1.0 decision towards the requested
target (no validation of the target against the endpoints map) and
executes it. -/
def performManualFailover (upd : String → String → ℤ → String → Bool)
    (cfg : DnsConfig) (now : ℚ) (st : AgentState) (uid targetDc : String) :
    AgentState × List Alert × Bool :=
  (findInstance uid st.instances).elim (st, [], false) fun inst =>
    executeFailover upd cfg now st
      { instance_uid := uid, instance_name := inst.name,
        from_dc := inst.active_dc, to_dc := targetDc,
        confidence := 1, timestamp := now }

/-- One tracked `AIRecommendation` (enhanced-failover.py lines 179-184). -/
structure AiRec where
  timestamp : ℚ
  recommendation : Option String
  target_dc : Option String
  confidence : ℚ
  deriving Repr, DecidableEq

/-- The advisor's parsed JSON verdict as a record; `none` models an
absent key (`decision.get(...)`). -/
structure AiDecision where
  recommendation : Option String := none
  target_dc : Option String := none
  confidence : Option ℚ := none
  deriving Repr

/-- `EnhancedFailoverManager._track_ai_recommendation` (enhanced-failover.py
lines 167-188): append the new recommendation, keep the last 5. -/
def trackAiRecommendation (ring : List AiRec) (now : ℚ) (d : AiDecision) :
    List AiRec :=
  let ring := ring ++ [⟨now, d.recommendation, d.target_dc, d.confidence.getD 0⟩]
  if ring.length > 5 then ring.drop (ring.length - 5) else ring

/-- `self.config.ai_failover_confidence or 0.8`: Python `or` replaces a
falsy value (absent or 0.0) with the 0.8 default. -/
def aiMinConfidence (cfg : AgentConfig) : ℚ :=
  cfg.ai_failover_confidence.elim 0.8 fun v => if v = 0 then 0.8 else v

/-- `EnhancedFailoverManager._should_execute_ai_recommendation`
(enhanced-failover.py lines 190-226).  `ring` is the recommendation list
AFTER `_track_ai_recommendation` has appended the current decision, as
in the caller (line 73 then line 76); `recent_recs[-1]` is therefore the
entry just appended for the current decision. -/
def shouldExecuteAiRecommendation (cfg : AgentConfig) (ring : List AiRec)
    (d : AiDecision) : Bool :=
  if d.recommendation ≠ some recFailover ∨ d.target_dc = none then false
  else if d.confidence.getD 0 < aiMinConfidence cfg then false
  else if ring.length ≥ 2 then
    ring.getLast?.elim false fun prev =>
      decide (prev.recommendation = some recFailover ∧
        prev.target_dc = d.target_dc ∧ prev.confidence ≥ aiMinConfidence cfg)
  else false

/-- Outcome of the AI-advised branch of
`EnhancedFailoverManager._check_instance_for_failover`. -/
inductive AiOutcome where
  | execute (d : FailoverDecision)
  | manualAlert (d : FailoverDecision)
  | noAction
  deriving Repr, DecidableEq

/-- The AI-advised branch of `EnhancedFailoverManager._check_instance_for_failover`
(enhanced-failover.py lines 62-97): track the recommendation, gate on
`_should_execute_ai_recommendation`, then execute only when
`auto_failover` is set and the confidence also clears
`failover_confidence_threshold`; otherwise send the manual-intervention
alert.  When the gate is closed nothing at all happens. -/
def enhancedAiStep (cfg : AgentConfig) (now : ℚ) (inst : RedisInstance)
    (ring : List AiRec) (d : AiDecision) : List AiRec × AiOutcome :=
  let ring' := trackAiRecommendation ring now d
  if shouldExecuteAiRecommendation cfg ring' d then
    let dec : FailoverDecision :=
      { instance_uid := inst.uid, instance_name := inst.name,
        from_dc := inst.active_dc, to_dc := d.target_dc.getD "",
        confidence := d.confidence.getD 0, timestamp := now }
    if cfg.auto_failover ∧ d.confidence.getD 0 ≥ cfg.failover_confidence_threshold then
      (ring', .execute dec)
    else (ring', .manualAlert dec)
  else (ring', .noAction)

/-- Confidence formula of the specification's standard decision path
(spec §4.7 step 3), written from the spec's words: base 0.5 plus the
additive adjustments, with the cooldown bands exclusive as fixed by the
spec's worked example (1800 s ago → −0.3 only), clamped to [0,1]. -/
def specConfidence (a t : HealthStatus) (timeSince : ℚ) : ℚ :=
  let x : ℚ := 0.5
    + (if a.status = stFailed then 0.4 else 0)
    + (if a.consecutive_errors ≥ 3 then 0.3 else 0)
    + (if a.status = stFailing then 0.2 else 0)
    + (if a.memory_used_percent > 95 then 0.2 else 0)
    + (if a.latency_ms > 500 then 0.15 else 0)
    + (if t.status = stHealthy ∧ a.status ≠ stHealthy then 0.1 else 0)
    + (if timeSince < 3600 then -0.3 else if timeSince < 86400 then -0.1 else 0)
  max 0 (min 1 x)

/-- Selection-score formula exactly as claim C8 words it: the latency
bonus `max(0, 50 − latency_ms/2)` unconditionally, the memory bonus when
`memory_used_percent < 80`, plus `hit_rate·30`, minus the error and
anomaly penalties. -/
def claimDcScore (s : HealthStatus) : ℚ :=
  (if s.status = stHealthy then 100 else if s.status = stDegraded then 50 else 0)
    + max 0 (50 - s.latency_ms / 2)
    + (if s.memory_used_percent < 80 then (100 - s.memory_used_percent) / 2 else 0)
    + s.hit_rate * 30
    - (s.consecutive_errors : ℚ) * 10
    - (s.consecutive_anomalies : ℚ) * 5

/-- The selection-score formula amended to what the source computes: the
latency and hit-rate bonuses apply only when the respective field is
strictly positive. -/
def amendedDcScore (s : HealthStatus) : ℚ :=
  (if s.status = stHealthy then 100 else if s.status = stDegraded then 50 else 0)
    + (if s.latency_ms > 0 then max 0 (50 - s.latency_ms / 2) else 0)
    + (if s.memory_used_percent < 80 then (100 - s.memory_used_percent) / 2 else 0)
    + (if s.hit_rate > 0 then s.hit_rate * 30 else 0)
    - (s.consecutive_errors : ℚ) * 10
    - (s.consecutive_anomalies : ℚ) * 5

/-- Health entry at one `(uid, dc)` key of the table. -/
def healthAt (t : HealthTable) (uid dc : String) : Option HealthStatus :=
  (lookupA uid t).bind (lookupA dc)

/-- Whether the AI-advised branch invoked `_execute_failover`. -/
def aiIsExecute : AiOutcome → Bool
  | .execute _ => true
  | _ => false

/-- Whether the AI-advised branch sent the manual-intervention alert. -/
def aiIsManualAlert : AiOutcome → Bool
  | .manualAlert _ => true
  | _ => false

/- Concrete inputs used to instantiate the claims. -/

def dcA : String := "dc-a"

def dcB : String := "dc-b"

def dcZ : String := "dc-z"

def uid1 : String := "i-1"

def name1 : String := "cache"

def errConn : String := "Connection refused"

def recNoAction : String := "no_action"

/-- A DNS-update oracle for which every UPSERT succeeds. -/
def updTrue : String → String → ℤ → String → Bool := fun _ _ _ _ => true

def epA : Endpoint := { host := some "a.cache.example.net" }

def epB : Endpoint := { host := some "b.cache.example.net" }

def inst1 : RedisInstance :=
  { name := name1, uid := uid1, endpoints := [(dcA, epA), (dcB, epB)], active_dc := dcA }

/-- Enhanced-path configuration: auto-failover on, default thresholds. -/
def c1cfg : AgentConfig := { auto_failover := true }

/-- A single prior recommendation that was NOT a failover verdict. -/
def c1ringPrior : List AiRec :=
  [{ timestamp := 10, recommendation := some recNoAction, target_dc := none,
     confidence := 0 }]

/-- A single prior failover recommendation at confidence 0.85. -/
def c1ringPrior85 : List AiRec :=
  [{ timestamp := 10, recommendation := some recFailover, target_dc := some dcB,
     confidence := 0.85 }]

def c1dec96 : AiDecision :=
  { recommendation := some recFailover, target_dc := some dcB, confidence := some 0.96 }

def c1dec85 : AiDecision :=
  { recommendation := some recFailover, target_dc := some dcB, confidence := some 0.85 }

/-- A default DNS record (no instance tag). -/
def c2recDefault : DnsRecord := { name := some "cache.example.net" }

/-- DNS configuration with no records at all. -/
def c2cfgEmpty : DnsConfig := { records := [] }

/-- DNS configuration with one default record. -/
def c2cfgGood : DnsConfig := { records := [c2recDefault] }

def c2info : InstanceInfo :=
  { name := name1, uid := uid1, endpoints := [(dcA, epA), (dcB, epB)] }

def c2st : AgentState := { instances := [inst1], lastFailoverTime := [(uid1, 0)] }

def c2dec : FailoverDecision :=
  { instance_uid := uid1, instance_name := name1, from_dc := dcA, to_dc := dcB,
    confidence := 1, timestamp := 500 }

/-- Sample with critical memory pressure AND rejected connections. -/
def c3m : Metrics :=
  { timestamp := 1, latency_ms := 5, memory_used_percent := 96, hit_rate := 0.9,
    rejected_connections := 1 }

/-- The anomaly-scenario sample: latency 400 ms, everything else calm. -/
def m400 : Metrics :=
  { timestamp := 1, latency_ms := 400, memory_used_percent := 40, hit_rate := 0.9 }

/-- Detector verdict for the anomaly scenario: anomalous at score 0.85. -/
def det85 : DetectionResult := { is_anomaly := true, score := 0.85 }

/-- Scenario-3 active status: failing, memory 97 %, latency 600 ms,
cannot serve traffic. -/
def c6active : HealthStatus :=
  { status := stFailing, can_serve_traffic := false, latency_ms := 600,
    memory_used_percent := 97, hit_rate := 0.5 }

/-- Scenario-3 alternative status: degraded but serviceable and otherwise
better. -/
def c6alt : HealthStatus :=
  { status := stDegraded, can_serve_traffic := true, latency_ms := 30,
    memory_used_percent := 50, hit_rate := 0.8 }

def c6health : List (String × HealthStatus) := [(dcA, c6active), (dcB, c6alt)]

def c6cfg : AgentConfig := { auto_failover := true }

def c6lastFailover : List (String × ℚ) := [(uid1, 1200)]

/-- Scenario-2 active status: failed with four consecutive errors. -/
def c7active : HealthStatus :=
  { status := stFailed, can_serve_traffic := false, latency_ms := 900,
    memory_used_percent := 97, consecutive_errors := 4 }

/-- Scenario-2 target status: healthy, 20 ms, 40 % memory, 0.95 hit rate. -/
def c7target : HealthStatus :=
  { status := stHealthy, can_serve_traffic := true, latency_ms := 20,
    memory_used_percent := 40, hit_rate := 0.95 }

def c7health : List (String × HealthStatus) := [(dcA, c7active), (dcB, c7target)]

def c7lastFailover : List (String × ℚ) := [(uid1, 100)]

/-- A healthy replica that has never been measured: zero latency. -/
def c8status : HealthStatus :=
  { status := stHealthy, can_serve_traffic := true, latency_ms := 0,
    memory_used_percent := 90, hit_rate := 0 }

def inst9 : RedisInstance :=
  { name := name1, uid := uid1, endpoints := [(dcA, epA)], active_dc := dcA }

def st9 : AgentState := { instances := [inst9], lastFailoverTime := [(uid1, 0)] }

def st1 : AgentState := { instances := [inst1], lastFailoverTime := [(uid1, 0)] }

/-- A probe-status write for the non-active datacenter of `inst1`. -/
def c10event : HealthEvent := { uid := uid1, dc := dcB, st := updateErrorStatus 40 errConn }

/- ------------------------------------------------------------------ -/
/- Theorems                                                            -/
/- ------------------------------------------------------------------ -/

/-- C1: in the enhanced decision path a single qualifying AI failover
recommendation executes a failover, because `_track_ai_recommendation`
appends the current recommendation before `_should_execute_ai_recommendation`
compares against `recent_recs[-1]`, which is that very entry: here the
only genuinely prior recommendation was `no_action`, yet with confidence
0.96 the failover executes.  Conversely the spec's own two-in-a-row
example at confidence 0.85 does not execute but lands on the
manual-intervention branch, since execution also requires
`confidence ≥ failover_confidence_threshold` (0.95) and `auto_failover`. -/
theorem c1_one_in_a_row_executes :
    aiIsExecute (enhancedAiStep c1cfg 400 inst1 c1ringPrior c1dec96).2 = true ∧
    aiIsManualAlert (enhancedAiStep c1cfg 400 inst1 c1ringPrior85 c1dec85).2 = true := by
  constructor <;>
    norm_num [enhancedAiStep, trackAiRecommendation, shouldExecuteAiRecommendation,
      aiMinConfidence, aiIsExecute, aiIsManualAlert, c1cfg, c1ringPrior,
      c1ringPrior85, c1dec96, c1dec85, inst1, recFailover, recNoAction, dcA, dcB,
      uid1, name1, List.getLast?, Option.some_ne_none]

/-- C2 counterexample: with no DNS records configured for the instance,
every configured record (vacuously) updates successfully, yet
`perform_failover` returns failure. -/
theorem c2_empty_records_counterexample :
    getDnsRecordsForInstance c2cfgEmpty uid1 name1 = [] ∧
    performFailover updTrue c2cfgEmpty uid1 dcB c2info = false := by
  constructor <;>
    norm_num [getDnsRecordsForInstance, performFailover, c2cfgEmpty, c2info,
      uid1, name1, dcB, List.filter]

/-- C3 counterexample: a sample with `memory_used_percent = 96 > 95` and
`rejected_connections = 1` evaluates to status `degraded`, not `failing`:
the rejected-connections rule runs after the memory rule and overwrites
the verdict. -/
theorem c3_memory_rejected_counterexample :
    c3m.memory_used_percent > 95 ∧
    (calculateHealthStatus c3m).status = stDegraded ∧ stDegraded ≠ stFailing := by
  refine ⟨by norm_num [c3m], ?_, by simp [stDegraded, stFailing]⟩
  norm_num [calculateHealthStatus, c3m, stDegraded, stFailing, stHealthy]

/-- C4: two consecutive failed probes leave `consecutive_errors = 1`,
not 2: `_update_error_status` always writes the literal 1 (its comment
expects the core to increment) and `update_health_status` replaces the
record without incrementing. -/
theorem c4_two_failures_keep_one :
    healthAt
      (updateHealthStatus
        (updateHealthStatus (initializeHealth [inst1]) uid1 dcA
          (updateErrorStatus 100 errConn))
        uid1 dcA (updateErrorStatus 130 errConn))
      uid1 dcA = some (updateErrorStatus 130 errConn) ∧
    (updateErrorStatus 130 errConn).consecutive_errors = 1 := by
  constructor <;>
    norm_num [healthAt, updateHealthStatus, updateErrorStatus, initializeHealth,
      initInstanceHealth, lookupA, setA, inst1, uid1, dcA, dcB, epA, epB, errConn,
      stFailed]

/-- C5: three consecutive anomalous samples (score 0.85 > threshold 0.8)
leave `consecutive_anomalies = 1` and emit no alert at all: each probe
tick first stores a freshly built `HealthStatus` whose
`consecutive_anomalies` is 0, so the detector's increment never
accumulates and the `≥ 3` alert gate never opens. -/
theorem c5_three_anomalies_stay_one :
    (healthAt ((monitorTick 0.8
        (monitorTick 0.8
          (monitorTick 0.8 (initializeHealth [inst1]) uid1 dcA m400 det85).1
          uid1 dcA m400 det85).1
        uid1 dcA m400 det85).1) uid1 dcA).map HealthStatus.consecutive_anomalies
      = some 1 ∧
    (monitorTick 0.8 (initializeHealth [inst1]) uid1 dcA m400 det85).2 = [] ∧
    (monitorTick 0.8
      (monitorTick 0.8 (initializeHealth [inst1]) uid1 dcA m400 det85).1
      uid1 dcA m400 det85).2 = [] ∧
    (monitorTick 0.8
      (monitorTick 0.8
        (monitorTick 0.8 (initializeHealth [inst1]) uid1 dcA m400 det85).1
        uid1 dcA m400 det85).1
      uid1 dcA m400 det85).2 = [] := by
  refine ⟨?_, ?_, ?_, ?_⟩ <;>
    norm_num [monitorTick, processMetrics, updateHealthStatus, calculateHealthStatus,
      updateErrorStatus, initializeHealth, initInstanceHealth, lookupA, setA,
      healthAt, anomalyAlertSeverity, m400, det85, inst1, uid1, dcA, dcB, epA, epB,
      stHealthy, stDegraded, stFailing, stFailed, stUnknown, errKeyError]

/-- C6 counterexample: the spec's scenario 3 (active failing at 97 %
memory and 600 ms latency, degraded alternative, last failover 1800 s
ago) yields confidence 0.75 below the 0.95 threshold, and the decision
path emits NO alert: `manual_failover_required` is not sent on the
below-threshold branch, which only logs. -/
theorem c6_low_confidence_silent_counterexample :
    isLowConfidenceSkip
      (checkInstanceForFailover c6cfg 3000 c6lastFailover inst1 c6health) = true ∧
    outcomeConfidence
      (checkInstanceForFailover c6cfg 3000 c6lastFailover inst1 c6health)
      = some 0.75 ∧
    outcomeAlerts
      (checkInstanceForFailover c6cfg 3000 c6lastFailover inst1 c6health) = [] := by
  refine ⟨?_, ?_, ?_⟩ <;>
    (try simp [checkInstanceForFailover, findBestAlternativeDc, findBestAux,
      calculateDcScore, makeFailoverDecision, addIf, cooldownAdj, lookupA,
      isLowConfidenceSkip, outcomeConfidence, outcomeAlerts, c6cfg, c6health,
      c6active, c6alt, c6lastFailover, inst1, uid1, dcA, dcB, stHealthy,
      stDegraded, stFailing, stFailed, Option.elim_none, Option.elim_some]) <;>
    (try norm_num) <;>
    (try simp) <;>
    (try norm_num)

/-- C8 counterexample: for a healthy replica with `latency_ms = 0` the
code's score is 100 while the claimed formula gives 150: the
`max(0, 50 − latency/2)` bonus is only added when `latency_ms > 0`. -/
theorem c8_latency_zero_counterexample :
    calculateDcScore c8status = 100 ∧ claimDcScore c8status = 150 ∧
    (100 : ℚ) ≠ 150 := by
  refine ⟨?_, ?_, by norm_num⟩ <;>
    norm_num [calculateDcScore, claimDcScore, c8status, stHealthy, stDegraded]

/-- C9 counterexample: a manual failover to `dc-z`, a datacenter absent
from the instance's endpoints map, succeeds (the executor synthesizes a
fallback hostname) and leaves `active_dc = dc-z`, violating the claimed
invariant that `active_dc` always names an endpoints key. -/
theorem c9_manual_failover_breaks_invariant :
    (performManualFailover updTrue c2cfgGood 50 st9 uid1 dcZ).2.2 = true ∧
    findInstance uid1 (performManualFailover updTrue c2cfgGood 50 st9 uid1 dcZ).1.instances
      = some { inst9 with active_dc := dcZ } ∧
    lookupA dcZ inst9.endpoints = none := by
  refine ⟨?_, ?_, ?_⟩ <;>
    (try simp [performManualFailover, executeFailover, performFailover,
      getDnsRecordsForInstance, getEndpointForDc, recordUpdateOk, findInstance,
      switchActiveDc, setA, lookupA, updTrue, c2cfgGood, c2recDefault, st9, inst9,
      uid1, dcZ, dcA, name1, epA, List.filter, Option.elim_none, Option.elim_some]) <;>
    (try norm_num) <;>
    (try simp) <;>
    (try norm_num)

/-- C3 amended: whenever `memory_used_percent > 95` the evaluator always
clears `can_serve_traffic`, and the status is `failing` unless the
rejected-connections rule also fires, in which case that later rule
overwrites the status to `degraded`. -/
theorem c3_memory_critical_amended (m : Metrics) (h : m.memory_used_percent > 95) :
    (calculateHealthStatus m).can_serve_traffic = false ∧
    (calculateHealthStatus m).status =
      (if m.rejected_connections > 0 then stDegraded else stFailing) := by
  have h90 : m.memory_used_percent > 90 := by linarith
  simp only [calculateHealthStatus]
  split_ifs <;> simp_all

/-- Witness for the amended C3: the counterexample sample instantiates
both conjuncts. -/
theorem c3_memory_critical_amended_witness :
    (calculateHealthStatus c3m).can_serve_traffic = false ∧
    (calculateHealthStatus c3m).status =
      (if c3m.rejected_connections > 0 then stDegraded else stFailing) :=
  c3_memory_critical_amended c3m (by norm_num [c3m])

/-- A conditional increment is the unconditional sum of a conditional
term. -/
theorem addIf_eq (c : Prop) [Decidable c] (x conf : ℚ) :
    addIf c x conf = conf + (if c then x else 0) := by
  unfold addIf; split_ifs <;> ring

/-- The cooldown statement is the sum of a conditional band term. -/
theorem cooldownAdj_eq (ts conf : ℚ) :
    cooldownAdj ts conf =
      conf + (if ts < 3600 then -0.3 else if ts < 86400 then -0.1 else 0) := by
  unfold cooldownAdj; split_ifs <;> ring

/-- C7: the decision confidence computed by `_make_failover_decision`
equals the spec's formula: base 0.5 plus the additive adjustments, with
exclusive cooldown bands, clamped to [0,1], evaluated at the active and
target statuses found in the health snapshot and the time since the
recorded last failover. -/
theorem c7_confidence_matches_spec (inst : RedisInstance) (fromDc toDc : String)
    (health : List (String × HealthStatus)) (now : ℚ) (lf : List (String × ℚ))
    (a t : HealthStatus)
    (ha : lookupA fromDc health = some a) (ht : lookupA toDc health = some t) :
    (makeFailoverDecision inst fromDc toDc health now lf).confidence =
      specConfidence a t (now - (lookupA inst.uid lf).getD 0) := by
  simp only [makeFailoverDecision, specConfidence, ha, ht, Option.elim_some,
    addIf_eq, cooldownAdj_eq]

/-- Witness for C7: the spec's scenario 2 (active failed with four
consecutive errors, healthy target, last failover 7200 s ago) evaluates
through the theorem to the spec formula, whose value is 1. -/
theorem c7_confidence_matches_spec_witness :
    (makeFailoverDecision inst1 dcA dcB c7health 7300 c7lastFailover).confidence =
      specConfidence c7active c7target (7300 - (lookupA inst1.uid c7lastFailover).getD 0) ∧
    specConfidence c7active c7target (7300 - (lookupA inst1.uid c7lastFailover).getD 0) = 1 := by
  constructor
  · exact c7_confidence_matches_spec inst1 dcA dcB c7health 7300 c7lastFailover
      c7active c7target (by simp [lookupA, c7health]) (by simp [lookupA, c7health, dcA, dcB])
  · simp [specConfidence, c7active, c7target, c7lastFailover, lookupA, inst1, uid1,
      stFailed, stHealthy, stFailing] <;> norm_num

/-- The best-score accumulator never decreases. -/
theorem findBestAux_snd_le (active : String) (l : List (String × HealthStatus)) :
    ∀ b : Option String × ℚ, b.2 ≤ (findBestAux active b l).2 := by
  induction l with
  | nil => intro b; exact le_refl _
  | cons hd tl ih =>
    intro b
    obtain ⟨dc, st⟩ := hd
    simp only [findBestAux]
    split_ifs with h1 h2 h3
    · exact ih b
    · exact ih b
    · exact le_trans (le_of_lt h3) (ih (some dc, calculateDcScore st))
    · exact ih b

/-- Every eligible candidate's score is bounded by the final best score. -/
theorem findBestAux_dominates (active : String) (l : List (String × HealthStatus)) :
    ∀ b : Option String × ℚ, ∀ p ∈ l, p.1 ≠ active → p.2.can_serve_traffic = true →
      calculateDcScore p.2 ≤ (findBestAux active b l).2 := by
  induction l with
  | nil => intro b p hp; exact absurd hp (List.not_mem_nil p)
  | cons hd tl ih =>
    intro b p hp hne hserve
    obtain ⟨dc, st⟩ := hd
    rcases List.mem_cons.1 hp with h | h
    · subst h
      simp only [findBestAux]
      split_ifs with h1 h2 h3
      · exact absurd h1 hne
      · rw [hserve] at h2; exact absurd h2 (by simp)
      · exact findBestAux_snd_le active tl (some dc, calculateDcScore st)
      · exact le_trans (le_of_not_lt h3) (findBestAux_snd_le active tl b)
    · simp only [findBestAux]
      split_ifs <;> exact ih _ p h hne hserve

/-- The loop's result is either the initial accumulator or an eligible
candidate from the list, paired with its own score. -/
theorem findBestAux_source (active : String) (l : List (String × HealthStatus)) :
    ∀ b : Option String × ℚ,
      findBestAux active b l = b ∨
      ∃ dc st, (dc, st) ∈ l ∧ dc ≠ active ∧ st.can_serve_traffic = true ∧
        findBestAux active b l = (some dc, calculateDcScore st) := by
  induction l with
  | nil => intro b; left; rfl
  | cons hd tl ih =>
    intro b
    obtain ⟨dc, st⟩ := hd
    simp only [findBestAux]
    split_ifs with h1 h2 h3
    · rcases ih b with h | ⟨dc', st', hmem, hne, hs, heq⟩
      · left; exact h
      · right; exact ⟨dc', st', List.mem_cons_of_mem _ hmem, hne, hs, heq⟩
    · rcases ih b with h | ⟨dc', st', hmem, hne, hs, heq⟩
      · left; exact h
      · right; exact ⟨dc', st', List.mem_cons_of_mem _ hmem, hne, hs, heq⟩
    · rcases ih (some dc, calculateDcScore st) with h | ⟨dc', st', hmem, hne, hs, heq⟩
      · right
        exact ⟨dc, st, List.mem_cons_self _ _, h1, by simpa using h2, h⟩
      · right; exact ⟨dc', st', List.mem_cons_of_mem _ hmem, hne, hs, heq⟩
    · rcases ih b with h | ⟨dc', st', hmem, hne, hs, heq⟩
      · left; exact h
      · right; exact ⟨dc', st', List.mem_cons_of_mem _ hmem, hne, hs, heq⟩

/-- C8 amended: the selection score equals the claimed formula with the
latency and hit-rate bonuses guarded by strict positivity, and
`_find_best_alternative_dc` always returns a serviceable non-active
candidate whose score dominates every other serviceable non-active
candidate. -/
theorem c8_score_formula_and_best_choice :
    (∀ s : HealthStatus, calculateDcScore s = amendedDcScore s) ∧
    (∀ (inst : RedisInstance) (health : List (String × HealthStatus)) (dc : String),
      findBestAlternativeDc inst health = some dc →
      ∃ st, (dc, st) ∈ health ∧ st.can_serve_traffic = true ∧ dc ≠ inst.active_dc ∧
        ∀ p ∈ health, p.1 ≠ inst.active_dc → p.2.can_serve_traffic = true →
          calculateDcScore p.2 ≤ calculateDcScore st) := by
  constructor
  · intro s
    simp only [calculateDcScore, amendedDcScore]
    split_ifs <;> ring
  · intro inst health dc h
    unfold findBestAlternativeDc at h
    rcases findBestAux_source inst.active_dc health (none, -1) with hcase | hcase
    · rw [hcase] at h; exact absurd h (by simp)
    · obtain ⟨dc', st, hmem, hne, hs, heq⟩ := hcase
      rw [heq] at h
      have hdc : dc' = dc := by simpa using h
      subst hdc
      refine ⟨st, hmem, hs, hne, fun p hp hpne hpserve => ?_⟩
      have hb := findBestAux_dominates inst.active_dc health (none, -1) p hp hpne hpserve
      rw [heq] at hb
      exact hb

/-- Witness for the amended C8: the scenario-3 snapshot selects `dc-b`,
which is serviceable, non-active and score-dominant; its score matches
the amended formula. -/
theorem c8_score_formula_and_best_choice_witness :
    calculateDcScore c6alt = amendedDcScore c6alt ∧
    (∃ st, (dcB, st) ∈ c6health ∧ st.can_serve_traffic = true ∧ dcB ≠ inst1.active_dc ∧
      ∀ p ∈ c6health, p.1 ≠ inst1.active_dc → p.2.can_serve_traffic = true →
        calculateDcScore p.2 ≤ calculateDcScore st) := by
  refine ⟨c8_score_formula_and_best_choice.1 c6alt,
    c8_score_formula_and_best_choice.2 inst1 c6health dcB ?_⟩
  simp [findBestAlternativeDc, findBestAux, calculateDcScore, c6health, c6active,
    c6alt, inst1, dcA, dcB, stHealthy, stDegraded, stFailing] <;> norm_num

/-- `perform_failover` succeeds exactly when some records are configured,
a truthy target hostname resolves, and every record update succeeds. -/
theorem performFailover_eq_true_iff (upd : String → String → ℤ → String → Bool)
    (cfg : DnsConfig) (uid toDc : String) (info : InstanceInfo) :
    performFailover upd cfg uid toDc info = true ↔
      getDnsRecordsForInstance cfg uid info.name ≠ [] ∧
      ∃ tgt, getEndpointForDc cfg uid toDc info = some tgt ∧ tgt ≠ "" ∧
        (getDnsRecordsForInstance cfg uid info.name).all (recordUpdateOk upd tgt)
          = true := by
  unfold performFailover
  by_cases hempty : (getDnsRecordsForInstance cfg uid info.name).isEmpty
  · simp [hempty, List.isEmpty_iff.mp hempty]
  · have hne : getDnsRecordsForInstance cfg uid info.name ≠ [] := by
      simpa [List.isEmpty_iff] using hempty
    cases hge : getEndpointForDc cfg uid toDc info with
    | none => simp [hge, hempty, hne]
    | some tgt =>
      by_cases htgt : tgt = ""
      · subst htgt; simp [hge, hempty, hne]
      · simp [hge, hempty, hne, htgt]

/-- C2 amended: a failover run through `_execute_failover` succeeds iff
at least one DNS record is configured for the instance, a truthy target
hostname resolves, and every record updates; on success `active_dc` is
switched, the failover time is recorded and `failover_succeeded` is
published, and on any failure the state is left untouched and
`failover_failed` is published. -/
theorem c2_success_iff_and_effects (upd : String → String → ℤ → String → Bool)
    (cfg : DnsConfig) (now : ℚ) (st : AgentState) (d : FailoverDecision)
    (inst : RedisInstance)
    (hfind : findInstance d.instance_uid st.instances = some inst) :
    ((executeFailover upd cfg now st d).2.2 = true ↔
      (getDnsRecordsForInstance cfg d.instance_uid inst.name ≠ [] ∧
       ∃ tgt, getEndpointForDc cfg d.instance_uid d.to_dc
           { name := inst.name, uid := inst.uid, endpoints := inst.endpoints }
             = some tgt ∧
         tgt ≠ "" ∧
         (getDnsRecordsForInstance cfg d.instance_uid inst.name).all
           (recordUpdateOk upd tgt) = true)) ∧
    ((executeFailover upd cfg now st d).2.2 = true →
      (executeFailover upd cfg now st d).1.instances =
        switchActiveDc d.instance_uid d.to_dc st.instances ∧
      (executeFailover upd cfg now st d).1.lastFailoverTime =
        setA d.instance_uid now st.lastFailoverTime ∧
      (executeFailover upd cfg now st d).2.1 = [⟨alertFailoverSucceeded, sevInfo⟩]) ∧
    ((executeFailover upd cfg now st d).2.2 = false →
      (executeFailover upd cfg now st d).1 = st ∧
      (executeFailover upd cfg now st d).2.1 = [⟨alertFailoverFailed, sevError⟩]) := by
  have hiff := performFailover_eq_true_iff upd cfg d.instance_uid d.to_dc
    ({ name := inst.name, uid := inst.uid, endpoints := inst.endpoints } : InstanceInfo)
  have hname : ({ name := inst.name, uid := inst.uid, endpoints := inst.endpoints }
                  : InstanceInfo).name = inst.name := rfl
  rw [hname] at hiff
  refine ⟨?_, ?_, ?_⟩
  · rw [← hiff]
    simp only [executeFailover, hfind, Option.elim_some]
    by_cases hpf : performFailover upd cfg d.instance_uid d.to_dc
        { name := inst.name, uid := inst.uid, endpoints := inst.endpoints } = true <;>
      simp [hpf]
  · intro hsucc
    simp only [executeFailover, hfind, Option.elim_some] at hsucc ⊢
    by_cases hpf : performFailover upd cfg d.instance_uid d.to_dc
        { name := inst.name, uid := inst.uid, endpoints := inst.endpoints } = true <;>
      simp [hpf] at hsucc ⊢
  · intro hfail
    simp only [executeFailover, hfind, Option.elim_some] at hfail ⊢
    by_cases hpf : performFailover upd cfg d.instance_uid d.to_dc
        { name := inst.name, uid := inst.uid, endpoints := inst.endpoints } = true <;>
      simp [hpf] at hfail ⊢

/-- Witness for the amended C2: a concrete successful failover through a
single default record, instantiating every conjunct of the theorem. -/
theorem c2_success_iff_and_effects_witness :
    ((executeFailover updTrue c2cfgGood 500 c2st c2dec).2.2 = true ↔
      (getDnsRecordsForInstance c2cfgGood c2dec.instance_uid inst1.name ≠ [] ∧
       ∃ tgt, getEndpointForDc c2cfgGood c2dec.instance_uid c2dec.to_dc
           { name := inst1.name, uid := inst1.uid, endpoints := inst1.endpoints }
             = some tgt ∧
         tgt ≠ "" ∧
         (getDnsRecordsForInstance c2cfgGood c2dec.instance_uid inst1.name).all
           (recordUpdateOk updTrue tgt) = true)) ∧
    ((executeFailover updTrue c2cfgGood 500 c2st c2dec).2.2 = true →
      (executeFailover updTrue c2cfgGood 500 c2st c2dec).1.instances =
        switchActiveDc c2dec.instance_uid c2dec.to_dc c2st.instances ∧
      (executeFailover updTrue c2cfgGood 500 c2st c2dec).1.lastFailoverTime =
        setA c2dec.instance_uid 500 c2st.lastFailoverTime ∧
      (executeFailover updTrue c2cfgGood 500 c2st c2dec).2.1 =
        [⟨alertFailoverSucceeded, sevInfo⟩]) ∧
    ((executeFailover updTrue c2cfgGood 500 c2st c2dec).2.2 = false →
      (executeFailover updTrue c2cfgGood 500 c2st c2dec).1 = c2st ∧
      (executeFailover updTrue c2cfgGood 500 c2st c2dec).2.1 =
        [⟨alertFailoverFailed, sevError⟩]) :=
  c2_success_iff_and_effects updTrue c2cfgGood 500 c2st c2dec inst1
    (by simp [findInstance, c2st, c2dec, inst1])

/-- C6 amended: once the active replica cannot serve traffic and an
alternative is chosen, the `manual_failover_required` alert is emitted
exactly when the confidence clears the threshold while `auto_failover`
is disabled; a below-threshold decision is dropped with only a log
entry (no alert). -/
theorem c6_manual_alert_characterisation (cfg : AgentConfig) (now : ℚ)
    (lf : List (String × ℚ)) (inst : RedisInstance)
    (health : List (String × HealthStatus)) (a : HealthStatus)
    (hne : health.isEmpty = false)
    (ha : lookupA inst.active_dc health = some a)
    (hserve : a.can_serve_traffic = false)
    (alt : String) (halt : findBestAlternativeDc inst health = some alt) :
    (outcomeAlerts (checkInstanceForFailover cfg now lf inst health)
        = [⟨alertManualFailoverRequired, sevWarning⟩] ↔
      ((makeFailoverDecision inst inst.active_dc alt health now lf).confidence ≥
          cfg.failover_confidence_threshold ∧ cfg.auto_failover = false)) ∧
    ((makeFailoverDecision inst inst.active_dc alt health now lf).confidence <
        cfg.failover_confidence_threshold →
      checkInstanceForFailover cfg now lf inst health =
        .lowConfidenceSkip (makeFailoverDecision inst inst.active_dc alt health now lf)) := by
  simp only [checkInstanceForFailover, hne, ha, Option.elim_some, hserve, halt,
    Bool.false_eq_true, if_false]
  split_ifs with h1 h2
  · refine ⟨?_, fun hlt => absurd h1 (not_le.mpr hlt)⟩
    simp [outcomeAlerts, h2]
  · refine ⟨?_, fun hlt => absurd h1 (not_le.mpr hlt)⟩
    have hauto : cfg.auto_failover = false := by simpa using h2
    simp [outcomeAlerts, hauto, h1]
  · refine ⟨?_, fun _ => rfl⟩
    simp [outcomeAlerts, h1]

/-- Witness for the amended C6: active failed and unserviceable, healthy
alternative, confidence 1 ≥ 0.95 and `auto_failover` disabled, so the
manual-intervention alert is emitted. -/
theorem c6_manual_alert_characterisation_witness :
    (outcomeAlerts (checkInstanceForFailover ({} : AgentConfig) 7300 c7lastFailover
        inst1 c7health) = [⟨alertManualFailoverRequired, sevWarning⟩] ↔
      ((makeFailoverDecision inst1 inst1.active_dc dcB c7health 7300
          c7lastFailover).confidence ≥
        ({} : AgentConfig).failover_confidence_threshold ∧
        ({} : AgentConfig).auto_failover = false)) ∧
    ((makeFailoverDecision inst1 inst1.active_dc dcB c7health 7300
        c7lastFailover).confidence < ({} : AgentConfig).failover_confidence_threshold →
      checkInstanceForFailover ({} : AgentConfig) 7300 c7lastFailover inst1 c7health =
        .lowConfidenceSkip (makeFailoverDecision inst1 inst1.active_dc dcB c7health
          7300 c7lastFailover)) := by
  refine c6_manual_alert_characterisation ({} : AgentConfig) 7300 c7lastFailover
    inst1 c7health c7active rfl (by simp [lookupA, c7health, inst1]) rfl dcB ?_
  simp [findBestAlternativeDc, findBestAux, calculateDcScore, c7health, c7active,
    c7target, inst1, dcA, dcB, stHealthy, stDegraded, stFailed] <;> norm_num

/-- Every member of `switchActiveDc`'s result is either an untouched
original instance or the first uid match with its `active_dc` replaced. -/
theorem switchActiveDc_mem (uid newDc : String) :
    ∀ (l : List RedisInstance), ∀ i' ∈ switchActiveDc uid newDc l,
      i' ∈ l ∨ ∃ i, i ∈ l ∧ i.uid = uid ∧ i' = { i with active_dc := newDc } := by
  intro l
  induction l with
  | nil => intro i' h; simp [switchActiveDc] at h
  | cons j t ih =>
    intro i' h
    simp only [switchActiveDc] at h
    split_ifs at h with hj
    · rcases List.mem_cons.1 h with h | h
      · right; exact ⟨j, List.mem_cons_self _ _, hj, h⟩
      · left; exact List.mem_cons_of_mem _ h
    · rcases List.mem_cons.1 h with h | h
      · left; exact h ▸ List.mem_cons_self _ _
      · rcases ih i' h with h' | ⟨i, hi, hiu, hieq⟩
        · left; exact List.mem_cons_of_mem _ h'
        · right; exact ⟨i, List.mem_cons_of_mem _ hi, hiu, hieq⟩

/-- `_execute_failover` either leaves the instance list unchanged or
switches the decision's instance to the decision's target. -/
theorem executeFailover_instances (upd : String → String → ℤ → String → Bool)
    (cfg : DnsConfig) (now : ℚ) (st : AgentState) (d : FailoverDecision) :
    (executeFailover upd cfg now st d).1.instances = st.instances ∨
    (executeFailover upd cfg now st d).1.instances =
      switchActiveDc d.instance_uid d.to_dc st.instances := by
  unfold executeFailover
  cases hf : findInstance d.instance_uid st.instances with
  | none => left; rfl
  | some inst =>
    simp only [Option.elim_some]
    split_ifs
    · right; rfl
    · left; rfl

/-- `perform_manual_failover` either leaves the instance list unchanged
or switches the requested instance to the requested target. -/
theorem performManualFailover_instances (upd : String → String → ℤ → String → Bool)
    (cfg : DnsConfig) (now : ℚ) (st : AgentState) (uid target : String) :
    (performManualFailover upd cfg now st uid target).1.instances = st.instances ∨
    (performManualFailover upd cfg now st uid target).1.instances =
      switchActiveDc uid target st.instances := by
  unfold performManualFailover
  cases hf : findInstance uid st.instances with
  | none => left; rfl
  | some inst =>
    simp only [Option.elim_some]
    exact executeFailover_instances upd cfg now st _

/-- C9 amended: the single `active_dc` field always names an endpoints
key provided every prior state satisfies the invariant AND the manual
failover target is itself an endpoints key of the targeted instance;
the code performs no such validation itself (see the counterexample). -/
theorem c9_invariant_preserved_for_endpoint_targets
    (upd : String → String → ℤ → String → Bool) (cfg : DnsConfig) (now : ℚ)
    (st : AgentState) (uid target : String)
    (hinv : ∀ i ∈ st.instances, (lookupA i.active_dc i.endpoints).isSome = true)
    (htarget : ∀ i ∈ st.instances, i.uid = uid →
      (lookupA target i.endpoints).isSome = true) :
    ∀ i' ∈ (performManualFailover upd cfg now st uid target).1.instances,
      (lookupA i'.active_dc i'.endpoints).isSome = true := by
  intro i' hi'
  rcases performManualFailover_instances upd cfg now st uid target with h | h
  · rw [h] at hi'; exact hinv i' hi'
  · rw [h] at hi'
    rcases switchActiveDc_mem uid target st.instances i' hi' with h' | ⟨i, hi, hiu, rfl⟩
    · exact hinv i' h'
    · simpa using htarget i hi hiu

/-- Witness for the amended C9: manual failover of `inst1` to its
endpoint key `dc-b` keeps `active_dc` inside the endpoints map, checked
on the switched instance itself. -/
theorem c9_invariant_preserved_witness :
    (lookupA ({ inst1 with active_dc := dcB } : RedisInstance).active_dc
      ({ inst1 with active_dc := dcB } : RedisInstance).endpoints).isSome = true :=
  c9_invariant_preserved_for_endpoint_targets updTrue c2cfgGood 60 st1 uid1 dcB
    (by decide) (by decide) ({ inst1 with active_dc := dcB } : RedisInstance)
    (by decide)

/-- Lookup after setting the same key. -/
theorem lookupA_setA_self {α : Type} (k : String) (v : α) (l : List (String × α)) :
    lookupA k (setA k v l) = some v := by
  induction l with
  | nil => simp [setA, lookupA]
  | cons hd tl ih =>
    obtain ⟨k', v'⟩ := hd
    simp only [setA]
    split_ifs with h
    · simp [lookupA]
    · simp [lookupA, h, ih]

/-- Lookup after setting a different key. -/
theorem lookupA_setA_ne {α : Type} (k k' : String) (v : α) (l : List (String × α))
    (h : k' ≠ k) : lookupA k (setA k' v l) = lookupA k l := by
  induction l with
  | nil => simp [setA, lookupA, h]
  | cons hd tl ih =>
    obtain ⟨k'', v''⟩ := hd
    simp only [setA]
    split_ifs with h2
    · subst h2; simp [lookupA, h]
    · simp only [lookupA, ih]

/-- A health write for another `(uid, dc)` key never touches this one. -/
theorem healthAt_update_other (t : HealthTable) (uid dc euid edc : String)
    (st : HealthStatus) (h : euid ≠ uid ∨ edc ≠ dc) :
    healthAt (updateHealthStatus t euid edc st) uid dc = healthAt t uid dc := by
  unfold updateHealthStatus healthAt
  cases ho : lookupA euid t with
  | none => rfl
  | some inner =>
    simp only [Option.elim_some]
    cases hi : lookupA edc inner with
    | none => rfl
    | some hs0 =>
      simp only [Option.elim_some]
      rcases h with h | h
      · rw [lookupA_setA_ne _ _ _ _ h]
      · by_cases he : euid = uid
        · subst he
          rw [lookupA_setA_self, ho]
          simp only [Option.some_bind]
          exact lookupA_setA_ne _ _ _ _ h
        · rw [lookupA_setA_ne _ _ _ _ he]

/-- A sequence of health writes that never targets `(uid, dc)` leaves
that entry unchanged. -/
theorem healthAt_applyEvents_other (events : List HealthEvent) (uid dc : String) :
    ∀ t : HealthTable, (∀ e ∈ events, e.uid ≠ uid ∨ e.dc ≠ dc) →
      healthAt (applyEvents t events) uid dc = healthAt t uid dc := by
  induction events with
  | nil => intro t _; rfl
  | cons e tl ih =>
    intro t h
    have h1 := h e (List.mem_cons_self _ _)
    have h2 : ∀ e' ∈ tl, e'.uid ≠ uid ∨ e'.dc ≠ dc :=
      fun e' he' => h e' (List.mem_cons_of_mem _ he')
    calc healthAt (applyEvents (updateHealthStatus t e.uid e.dc e.st) tl) uid dc
        = healthAt (updateHealthStatus t e.uid e.dc e.st) uid dc := ih _ h2
      _ = healthAt t uid dc := healthAt_update_other t uid dc e.uid e.dc e.st h1

/-- Folding endpoint datacenters into the fresh per-instance health map:
a key is bound to the default status exactly when it is an endpoints key. -/
theorem endpoints_foldl_lookup (l : List (String × Endpoint)) (dc : String) :
    ∀ acc : List (String × HealthStatus),
      lookupA dc (l.foldl (fun inner e => setA e.1 {} inner) acc) =
        if (lookupA dc l).isSome then some {} else lookupA dc acc := by
  induction l with
  | nil => intro acc; simp [lookupA]
  | cons e tl ih =>
    intro acc
    obtain ⟨k, ep⟩ := e
    by_cases hk : k = dc
    · subst hk
      simp only [List.foldl_cons, ih, lookupA, if_pos rfl, Option.isSome_some, if_true]
      rw [lookupA_setA_self]
      split_ifs <;> rfl
    · simp only [List.foldl_cons, ih, lookupA, if_neg hk]
      rw [lookupA_setA_ne _ _ _ _ hk]

/-- Lookup in the fresh per-instance health map. -/
theorem initInstanceHealth_lookup (i : RedisInstance) (dc : String)
    (h : (lookupA dc i.endpoints).isSome = true) :
    lookupA dc (initInstanceHealth i) = some {} := by
  unfold initInstanceHealth
  rw [endpoints_foldl_lookup i.endpoints dc [], h]
  rfl

/-- Folding instances whose uids all differ from `uid` leaves the `uid`
slot of the table unchanged. -/
theorem instances_foldl_other (l : List RedisInstance) (uid : String)
    (h : ∀ j ∈ l, j.uid ≠ uid) :
    ∀ acc : HealthTable,
      lookupA uid (l.foldl (fun t i => setA i.uid (initInstanceHealth i) t) acc) =
        lookupA uid acc := by
  induction l with
  | nil => intro acc; rfl
  | cons j tl ih =>
    intro acc
    have hj := h j (List.mem_cons_self _ _)
    have htl : ∀ j' ∈ tl, j'.uid ≠ uid := fun j' hj' => h j' (List.mem_cons_of_mem _ hj')
    simp only [List.foldl_cons, ih htl]
    exact lookupA_setA_ne _ _ _ _ hj

/-- After `initialize`, the slot of an instance whose uid is unique in
the configuration holds exactly that instance's fresh health map. -/
theorem initializeHealth_lookup_aux :
    ∀ (l : List RedisInstance) (inst : RedisInstance), inst ∈ l →
      (∀ j ∈ l, j.uid = inst.uid → j = inst) →
      ∀ acc : HealthTable,
        lookupA inst.uid (l.foldl (fun t i => setA i.uid (initInstanceHealth i) t) acc)
          = some (initInstanceHealth inst) := by
  intro l
  induction l with
  | nil => intro inst hm; exact absurd hm (List.not_mem_nil _)
  | cons j tl ih =>
    intro inst hm hu acc
    by_cases hin : inst ∈ tl
    · have hu' : ∀ j' ∈ tl, j'.uid = inst.uid → j' = inst :=
        fun j' hj' => hu j' (List.mem_cons_of_mem _ hj')
      exact ih inst hin hu' _
    · have hj : inst = j := by
        rcases List.mem_cons.1 hm with h | h
        · exact h
        · exact absurd h hin
      subst hj
      have htl : ∀ j' ∈ tl, j'.uid ≠ inst.uid := by
        intro j' hj' hne
        exact hin ((hu j' (List.mem_cons_of_mem _ hj') hne) ▸ hj')
      simp only [List.foldl_cons]
      rw [instances_foldl_other tl inst.uid htl]
      exact lookupA_setA_self _ _ _

/-- After `initialize`, the slot of an instance whose uid is unique in
the configuration holds exactly that instance's fresh health map. -/
theorem initializeHealth_lookup (instances : List RedisInstance)
    (inst : RedisInstance) (hm : inst ∈ instances)
    (hu : ∀ j ∈ instances, j.uid = inst.uid → j = inst) :
    lookupA inst.uid (initializeHealth instances) = some (initInstanceHealth inst) :=
  initializeHealth_lookup_aux instances inst hm hu []

/-- C10: from initialization until the first probe write for the active
replica, its entry is the default `HealthStatus()` (status `unknown`,
`can_serve_traffic` true), and the standard decision path returns at the
`can_serve_traffic` check without considering a failover. -/
theorem c10_default_until_first_probe (instances : List RedisInstance)
    (events : List HealthEvent) (inst : RedisInstance) (cfg : AgentConfig)
    (now : ℚ) (lf : List (String × ℚ))
    (hm : inst ∈ instances)
    (hu : ∀ j ∈ instances, j.uid = inst.uid → j = inst)
    (hdc : (lookupA inst.active_dc inst.endpoints).isSome = true)
    (hev : ∀ e ∈ events, e.uid ≠ inst.uid ∨ e.dc ≠ inst.active_dc) :
    healthAt (applyEvents (initializeHealth instances) events) inst.uid inst.active_dc
      = some {} ∧
    checkInstanceForFailover cfg now lf inst
      (getInstanceHealth (applyEvents (initializeHealth instances) events) inst.uid)
      = .activeServes := by
  have h0 : healthAt (initializeHealth instances) inst.uid inst.active_dc = some {} := by
    unfold healthAt
    rw [initializeHealth_lookup instances inst hm hu]
    simp only [Option.some_bind]
    exact initInstanceHealth_lookup inst _ hdc
  have h1 : healthAt (applyEvents (initializeHealth instances) events)
      inst.uid inst.active_dc = some {} :=
    (healthAt_applyEvents_other events inst.uid inst.active_dc _ hev).trans h0
  refine ⟨h1, ?_⟩
  obtain ⟨M, hM, hMdc⟩ := Option.bind_eq_some.mp h1
  have hempty : M.isEmpty = false := by
    cases M with
    | nil => simp [lookupA] at hMdc
    | cons hd tl => rfl
  simp [checkInstanceForFailover, getInstanceHealth, hM, hempty, hMdc]

/-- Witness for C10: one configured instance, one probe write for the
non-active datacenter; the active replica stays at the default record
and the decision path returns early. -/
theorem c10_default_until_first_probe_witness :
    healthAt (applyEvents (initializeHealth [inst1]) [c10event]) inst1.uid
      inst1.active_dc = some {} ∧
    checkInstanceForFailover ({} : AgentConfig) 90 [] inst1
      (getInstanceHealth (applyEvents (initializeHealth [inst1]) [c10event]) inst1.uid)
      = .activeServes :=
  c10_default_until_first_probe [inst1] [c10event] inst1 ({} : AgentConfig) 90 []
    (by decide) (by decide) (by decide) (by decide)

end RedisAgent
